import Mathlib

/-!
Verification development for the liqpay_rs payment-gateway client.

The request-authentication/dispatch core of the crate is shallowly embedded:
Rust strings and byte buffers become lists of byte values, the serde/reqwest
collaborators become explicit oracle parameters, and the two hash primitives
(SHA-1 and SHA3-256, selected per request type by the LiqPayRequest impl)
are implemented concretely so that fixture vectors can be evaluated.
-/

set_option maxRecDepth 100000

namespace LiqPay

/-- Byte strings. Rust String and Vec of u8 values are modelled as lists of
byte values (each entry is meant to lie below 256). -/
abbrev Bytes := List Nat

/-- ASCII bytes of a Lean string literal. Used only for ASCII text, where the
UTF-8 bytes coincide with the character codes. -/
def asciiBytes (s : String) : Bytes :=
  s.data.map Char.toNat

/-- Standard-alphabet base64 character code for a 6-bit value. -/
def base64Char (n : Nat) : Nat :=
  if n < 26 then 65 + n
  else if n < 52 then 71 + n
  else if n < 62 then n - 4
  else if n = 62 then 43
  else 47

/-- Base64 encoding with padding over the standard alphabet, modelling the
base64 crate's STANDARD engine used throughout client.rs. -/
def base64Encode : Bytes → Bytes
  | [] => []
  | [a] => [base64Char (a / 4), base64Char (a % 4 * 16), 61, 61]
  | [a, b] => [base64Char (a / 4), base64Char (a % 4 * 16 + b / 16), base64Char (b % 16 * 4), 61]
  | a :: b :: c :: rest =>
    base64Char (a / 4) :: base64Char (a % 4 * 16 + b / 16) ::
      base64Char (b % 16 * 4 + c / 64) :: base64Char (c % 64) :: base64Encode rest

/-- Big-endian bytes (k of them) of a natural number. -/
def toBytesBE (k n : Nat) : Bytes :=
  (List.range k).map fun i => n / 256 ^ (k - 1 - i) % 256

/-- Left rotation of a 32-bit word. -/
def rotl32 (k x : Nat) : Nat :=
  x * 2 ^ k % 4294967296 + x / 2 ^ (32 - k)

/-- SHA-1 message padding: a one bit, zeros up to 56 mod 64 bytes, then the
bit length as a 64-bit big-endian integer. -/
def sha1Pad (msg : Bytes) : Bytes :=
  msg ++ [128] ++ List.replicate ((119 - msg.length % 64) % 64) 0 ++ toBytesBE 8 (msg.length * 8)

/-- Group bytes into big-endian 32-bit words. -/
def bytesToWordsBE : Bytes → List Nat
  | a :: b :: c :: d :: rest => (((a * 256 + b) * 256 + c) * 256 + d) :: bytesToWordsBE rest
  | _ => []

/-- Extend the 16-word block to the 80-word SHA-1 message schedule; the
accumulator is kept in reverse order so recent words are at the head. -/
def sha1ExtendAux : Nat → List Nat → List Nat
  | 0, acc => acc
  | n + 1, acc =>
    let w := rotl32 1 (Nat.xor (Nat.xor (acc.getD 2 0) (acc.getD 7 0))
      (Nat.xor (acc.getD 13 0) (acc.getD 15 0)))
    sha1ExtendAux n (w :: acc)

/-- Full 80-word SHA-1 message schedule of one 16-word block. -/
def sha1Schedule (block : List Nat) : List Nat :=
  (sha1ExtendAux 64 block.reverse).reverse

/-- SHA-1 round function. -/
def sha1F (t b c d : Nat) : Nat :=
  if t < 20 then Nat.lor (Nat.land b c) (Nat.land (Nat.xor b 4294967295) d)
  else if t < 40 then Nat.xor (Nat.xor b c) d
  else if t < 60 then Nat.lor (Nat.lor (Nat.land b c) (Nat.land b d)) (Nat.land c d)
  else Nat.xor (Nat.xor b c) d

/-- SHA-1 round constants. -/
def sha1K (t : Nat) : Nat :=
  if t < 20 then 1518500249
  else if t < 40 then 1859775393
  else if t < 60 then 2400959708
  else 3395469782

/-- SHA-1 compression of one block into the running five-word state. -/
def sha1Compress (h : List Nat) (block : List Nat) : List Nat :=
  let w := sha1Schedule block
  let final := (List.range 80).foldl
    (fun st t =>
      match st with
      | (a, b, c, d, e) =>
        ((rotl32 5 a + sha1F t b c d + e + sha1K t + w.getD t 0) % 4294967296,
          a, rotl32 30 b, c, d))
    (h.getD 0 0, h.getD 1 0, h.getD 2 0, h.getD 3 0, h.getD 4 0)
  match final with
  | (a, b, c, d, e) =>
    [(h.getD 0 0 + a) % 4294967296, (h.getD 1 0 + b) % 4294967296,
      (h.getD 2 0 + c) % 4294967296, (h.getD 3 0 + d) % 4294967296,
      (h.getD 4 0 + e) % 4294967296]

/-- Split a byte string into n chunks of the given size. -/
def chunks (size : Nat) : Nat → Bytes → List Bytes
  | 0, _ => []
  | n + 1, bs => bs.take size :: chunks size n (bs.drop size)

/-- SHA-1 digest of a byte string, modelling the sha1 crate digest used for
legacy request types. -/
def sha1 (msg : Bytes) : Bytes :=
  let padded := sha1Pad msg
  let blocks := chunks 64 (padded.length / 64) padded
  let hs := blocks.foldl (fun h block => sha1Compress h (bytesToWordsBE block))
    [1732584193, 4023233417, 2562383102, 271733878, 3285377520]
  (hs.map (toBytesBE 4)).flatten

/-- Left rotation of a 64-bit lane. -/
def rotl64 (k x : Nat) : Nat :=
  x * 2 ^ (k % 64) % 18446744073709551616 + x / 2 ^ (64 - k % 64)

/-- Lane of a Keccak state at coordinates x y, both taken modulo 5. -/
def lane (s : List Nat) (x y : Nat) : Nat :=
  s.getD (x % 5 + 5 * (y % 5)) 0

/-- Keccak round constants. -/
def keccakRC : List Nat :=
  [1, 32898, 9223372036854808714, 9223372039002292224, 32907, 2147483649,
    9223372039002292353, 9223372036854808585, 138, 136, 2147516425, 2147483658,
    2147516555, 9223372036854775947, 9223372036854808713, 9223372036854808579,
    9223372036854808578, 9223372036854775936, 32778, 9223372039002259466,
    9223372039002292353, 9223372036854808704, 2147483649, 9223372039002292232]

/-- Keccak rho rotation offset for the lane at index x plus five times y. -/
def keccakRotOffset : Nat → Nat
  | 1 => 1
  | 2 => 62
  | 3 => 28
  | 4 => 27
  | 5 => 36
  | 6 => 44
  | 7 => 6
  | 8 => 55
  | 9 => 20
  | 10 => 3
  | 11 => 10
  | 12 => 43
  | 13 => 25
  | 14 => 39
  | 15 => 41
  | 16 => 45
  | 17 => 15
  | 18 => 21
  | 19 => 8
  | 20 => 18
  | 21 => 2
  | 22 => 61
  | 23 => 56
  | 24 => 14
  | _ => 0

/-- Keccak theta step. -/
def keccakTheta (s : List Nat) : List Nat :=
  let c := fun x => Nat.xor (lane s x 0) (Nat.xor (lane s x 1)
    (Nat.xor (lane s x 2) (Nat.xor (lane s x 3) (lane s x 4))))
  let d := fun x => Nat.xor (c ((x + 4) % 5)) (rotl64 1 (c ((x + 1) % 5)))
  (List.range 25).map fun i => Nat.xor (s.getD i 0) (d (i % 5))

/-- Keccak rho and pi steps combined. -/
def keccakRhoPi (s : List Nat) : List Nat :=
  (List.range 25).map fun i =>
    let xp := i % 5
    let yp := i / 5
    let x := (xp + 3 * yp) % 5
    let y := xp
    rotl64 (keccakRotOffset (x + 5 * y)) (lane s x y)

/-- Keccak chi step. -/
def keccakChi (s : List Nat) : List Nat :=
  (List.range 25).map fun i =>
    let x := i % 5
    let y := i / 5
    Nat.xor (lane s x y)
      (Nat.land (Nat.xor (lane s (x + 1) y) 18446744073709551615) (lane s (x + 2) y))

/-- One Keccak round: theta, rho, pi, chi, then iota with the round constant. -/
def keccakRound (rc : Nat) (s : List Nat) : List Nat :=
  match keccakChi (keccakRhoPi (keccakTheta s)) with
  | [] => []
  | a :: rest => Nat.xor a rc :: rest

/-- The Keccak-f permutation on 1600 bits: 24 rounds. -/
def keccakF (s : List Nat) : List Nat :=
  keccakRC.foldl (fun st rc => keccakRound rc st) s

/-- Group bytes into little-endian 64-bit lanes. -/
def bytesToLanesLE : Bytes → List Nat
  | b0 :: b1 :: b2 :: b3 :: b4 :: b5 :: b6 :: b7 :: rest =>
    (b0 + 256 * (b1 + 256 * (b2 + 256 * (b3 + 256 * (b4 + 256 * (b5 + 256 *
      (b6 + 256 * b7))))))) :: bytesToLanesLE rest
  | _ => []

/-- Little-endian bytes of one 64-bit lane. -/
def laneToBytesLE (x : Nat) : Bytes :=
  (List.range 8).map fun i => x / 256 ^ i % 256

/-- SHA-3 multi-rate padding for rate 136 with domain byte 0x06. -/
def sha3Pad (msg : Bytes) : Bytes :=
  let r := msg.length % 136
  if r = 135 then msg ++ [134]
  else msg ++ [6] ++ List.replicate (134 - r) 0 ++ [128]

/-- Absorb one 136-byte block into the Keccak state and permute. -/
def keccakAbsorb (st : List Nat) (block : Bytes) : List Nat :=
  let ls := bytesToLanesLE block
  keccakF ((List.range 25).map fun i => Nat.xor (st.getD i 0) (ls.getD i 0))

/-- SHA3-256 digest of a byte string, modelling the sha3 crate digest used for
current request types. -/
def sha3_256 (msg : Bytes) : Bytes :=
  let padded := sha3Pad msg
  let st := (chunks 136 (padded.length / 136) padded).foldl keccakAbsorb
    (List.replicate 25 0)
  ((st.take 4).map laneToBytesLE).flatten

/-- The form key for the encoded payload (constant DATA in client.rs). -/
def DATA : String := "data"

/-- The form key for the signature (constant SIGNATURE in client.rs). -/
def SIGNATURE : String := "signature"

/-- The fixed gateway endpoint (constant CLIENT_URL in client.rs). -/
def CLIENT_URL : String := "https://www.liqpay.ua/api/request"

/-- Translation of build_signature in client.rs: the private key is
concatenated on both sides of the body. Rust String concatenation via format
is byte-string concatenation of the UTF-8 representations, hence list append
here. -/
def build_signature (private_key body : Bytes) : Bytes :=
  private_key ++ body ++ private_key

/-- The transmitted form body: a list of key and value pairs. The Rust
FormData type is an array of exactly two such pairs; the length is proved,
not assumed, in the theorems below. -/
abbrev FormData := List (String × Bytes)

/-- The static contract bound to a request type: the LiqPayRequest impl fixes
the response type and the hash algorithm, and the serde instances fix the
JSON serializer of the request and the JSON decoder of the response. The
serde collaborators are external to the crate and enter as oracle fields. -/
structure Contract (Req Resp : Type) where
  hash : Bytes → Bytes
  serialize : Req → Except String Bytes
  decode : Bytes → Except String Resp

/-- Lines 32 to 34 of client.rs viewed as one signing step: hash the
key-body-key sandwich and base64-encode the digest. -/
def signPayload (hash : Bytes → Bytes) (private_key body : Bytes) : Bytes :=
  base64Encode (hash (build_signature private_key body))

/-- Translation of build_form_data in client.rs: serialize the request to
JSON, base64-encode it, sign it, and assemble the two-entry form body. -/
def build_form_data {Req Resp : Type} (ct : Contract Req Resp)
    (private_key : Bytes) (request : Req) : Except String FormData :=
  match ct.serialize request with
  | Except.error e => Except.error e
  | Except.ok serialized_request =>
    let encoded_request := base64Encode serialized_request
    let signature := build_signature private_key encoded_request
    let hashed_signature := ct.hash signature
    let encoded_signature := base64Encode hashed_signature
    Except.ok [(DATA, encoded_request), (SIGNATURE, encoded_signature)]

/-- The error kinds that may cross the dispatch boundary. Each carries the
message of the underlying failure unmodified. -/
inductive DispatchError where
  | serialization (e : String)
  | transport (e : String)
  | decode (e : String)
deriving DecidableEq

/-- A transport oracle: one reqwest POST of a form body to CLIENT_URL,
yielding the raw HTTP response body or a transport failure. -/
abbrev Transport := FormData → Except String Bytes

/-- The underlying reqwest Client. Its connection pool is owned by the
transport collaborator and carries no data relevant to the core. -/
structure HttpClient

/-- Translation of the LiqPayClient struct in client.rs: the non-blocking
dispatcher, holding the HTTP client and the private key. -/
structure LiqPayClient where
  client : HttpClient
  private_key : Bytes

/-- Translation of LiqPayClient new: bind the credential and a fresh HTTP
client. -/
def LiqPayClient.new (private_key : Bytes) : LiqPayClient :=
  { client := HttpClient.mk, private_key := private_key }

/-- Translation of the non-blocking LiqPayClient send: build the form data,
POST it, and decode the response body into the contract-bound response type.
Suspension at the network boundary does not affect the value computed, so the
async fn is embedded as a pure function of the transport oracle. -/
def LiqPayClient.send {Req Resp : Type} (self : LiqPayClient)
    (ct : Contract Req Resp) (transport : Transport) (request : Req) :
    Except DispatchError Resp :=
  match build_form_data ct self.private_key request with
  | Except.error e => Except.error (DispatchError.serialization e)
  | Except.ok form_data =>
    match transport form_data with
    | Except.error e => Except.error (DispatchError.transport e)
    | Except.ok body =>
      match ct.decode body with
      | Except.error e => Except.error (DispatchError.decode e)
      | Except.ok deserialized_response => Except.ok deserialized_response

/-- Translation of the BlockLiqPayClient struct in the blocking module of
client.rs: same two fields over the blocking reqwest client. -/
structure BlockLiqPayClient where
  client : HttpClient
  private_key : Bytes

/-- Translation of BlockLiqPayClient new. -/
def BlockLiqPayClient.new (private_key : Bytes) : BlockLiqPayClient :=
  { client := HttpClient.mk, private_key := private_key }

/-- Translation of the blocking BlockLiqPayClient send: the same pipeline as
the non-blocking client, executed on the calling thread. -/
def BlockLiqPayClient.send {Req Resp : Type} (self : BlockLiqPayClient)
    (ct : Contract Req Resp) (transport : Transport) (request : Req) :
    Except DispatchError Resp :=
  match build_form_data ct self.private_key request with
  | Except.error e => Except.error (DispatchError.serialization e)
  | Except.ok form_data =>
    match transport form_data with
    | Except.error e => Except.error (DispatchError.transport e)
    | Except.ok body =>
      match ct.decode body with
      | Except.error e => Except.error (DispatchError.decode e)
      | Except.ok deserialized_response => Except.ok deserialized_response

/-- Instrumented form of LiqPayClient send that additionally records every
form body handed to the transport, one list entry per HTTP POST performed. -/
def LiqPayClient.sendTraced {Req Resp : Type} (self : LiqPayClient)
    (ct : Contract Req Resp) (transport : Transport) (request : Req) :
    Except DispatchError Resp × List FormData :=
  match build_form_data ct self.private_key request with
  | Except.error e => (Except.error (DispatchError.serialization e), [])
  | Except.ok form_data =>
    match transport form_data with
    | Except.error e => (Except.error (DispatchError.transport e), [form_data])
    | Except.ok body =>
      match ct.decode body with
      | Except.error e => (Except.error (DispatchError.decode e), [form_data])
      | Except.ok deserialized_response =>
        (Except.ok deserialized_response, [form_data])

/-- Instrumented form of BlockLiqPayClient send, recording every form body
handed to the transport. -/
def BlockLiqPayClient.sendTraced {Req Resp : Type} (self : BlockLiqPayClient)
    (ct : Contract Req Resp) (transport : Transport) (request : Req) :
    Except DispatchError Resp × List FormData :=
  match build_form_data ct self.private_key request with
  | Except.error e => (Except.error (DispatchError.serialization e), [])
  | Except.ok form_data =>
    match transport form_data with
    | Except.error e => (Except.error (DispatchError.transport e), [form_data])
    | Except.ok body =>
      match ct.decode body with
      | Except.error e => (Except.error (DispatchError.decode e), [form_data])
      | Except.ok deserialized_response =>
        (Except.ok deserialized_response, [form_data])

/-- State-passing form of LiqPayClient send: the Rust method borrows the
client immutably, so the client value is returned unchanged alongside the
result. -/
def LiqPayClient.sendSt {Req Resp : Type} (self : LiqPayClient)
    (ct : Contract Req Resp) (transport : Transport) (request : Req) :
    Except DispatchError Resp × LiqPayClient :=
  (self.send ct transport request, self)

/-- State-passing form of BlockLiqPayClient send. -/
def BlockLiqPayClient.sendSt {Req Resp : Type} (self : BlockLiqPayClient)
    (ct : Contract Req Resp) (transport : Transport) (request : Req) :
    Except DispatchError Resp × BlockLiqPayClient :=
  (self.send ct transport request, self)

/-- Bytes that the form-urlencoded serializer leaves unescaped: ASCII
alphanumerics and asterisk, hyphen, period, underscore. -/
def isFormUrlSafe (b : Nat) : Bool :=
  (48 ≤ b && b ≤ 57) || (65 ≤ b && b ≤ 90) || (97 ≤ b && b ≤ 122) ||
    b == 42 || b == 45 || b == 46 || b == 95

/-- Uppercase hexadecimal digit character code of a value below 16. -/
def hexDigit (n : Nat) : Nat :=
  if n < 10 then 48 + n else 55 + n

/-- Percent-encoding of one byte under the application x-www-form-urlencoded
rules used by serde_urlencoded inside reqwest form: safe bytes pass through,
space becomes plus, anything else becomes a percent escape. -/
def pctEncodeByte (b : Nat) : Bytes :=
  if isFormUrlSafe b then [b]
  else if b == 32 then [43]
  else [37, hexDigit (b / 16), hexDigit (b % 16)]

/-- Percent-encoding of a byte string. -/
def pctEncode (bs : Bytes) : Bytes :=
  (bs.map pctEncodeByte).flatten

/-- One form-urlencoded pair: percent-encoded key, equals sign, then
percent-encoded value. -/
def formUrlencodePair (p : String × Bytes) : Bytes :=
  pctEncode (asciiBytes p.1) ++ [61] ++ pctEncode p.2

/-- The form-urlencoded POST body serialized from a sequence of key and value
pairs, joined with ampersands, modelling serde_urlencoded as invoked by
reqwest form. -/
def formUrlencode : FormData → Bytes
  | [] => []
  | [p] => formUrlencodePair p
  | p :: rest => formUrlencodePair p ++ [38] ++ formUrlencode rest

/-- JSON values, as produced by the serde serializer: an object is a sequence
of key and value pairs in field-declaration order. Rational numbers stand for
the finite double values the crate stores; none of the embedded code paths
perform floating-point arithmetic. -/
inductive JVal where
  | str (s : String)
  | num (q : ℚ)
  | boolean (b : Bool)
  | arr (xs : List JVal)
  | obj (fields : List (String × JVal))

/-- Optional field of a serde-derived serializer with the skip-if-none
attribute: an absent value contributes no key at all. -/
def optField {α : Type} (name : String) (o : Option α) (f : α → JVal) :
    List (String × JVal) :=
  match o with
  | none => []
  | some v => [(name, f v)]

/-- Translation of the Version enum in common.rs. -/
inductive Version where
  | Three
  | Seven
deriving DecidableEq

/-- Serde serialization of Version: unit variants serialize as their renamed
strings. -/
def Version.toJson : Version → JVal
  | Version.Three => JVal.str "3"
  | Version.Seven => JVal.str "7"

/-- Translation of the Action enum in common.rs. -/
inductive Action where
  | Pay
  | SendInvoice
  | CancelInvoice
  | PayQrCode
  | CreateQrCode
  | PayToken
  | PayCash
  | PayTrack
  | Refund
  | Hold
  | Subscribe
  | UpdateSubscription
  | PayDonate
  | Auth
  | Status
  | Unsubscribe
  | Ticket
  | PaySplit
  | Regular
  | PreparePayment
  | P2PCredit
  | P2PDebit
  | P2P
  | CardVerification
  | Reports
  | CreateToken
  | CreateUniqueToken
  | UpdateToken
  | ReportsCompensation
  | ReportsCompensationFile
  | ReportsCompensationFileStatus
  | Registry
  | Data
  | CreateShop
  | RegisterShop
  | EditShop
  | MccCodes
  | MerchantInfo
  | UserInfo
  | GetInvoiceUnits
  | GetInvoiceUnitsByLanguage
  | Confirm
  | Mpi
deriving DecidableEq

/-- Serde serialization of Action per the rename attributes in common.rs. -/
def Action.toJson : Action → JVal
  | Action.Pay => JVal.str "pay"
  | Action.SendInvoice => JVal.str "invoice_send"
  | Action.CancelInvoice => JVal.str "invoice_cancel"
  | Action.PayQrCode => JVal.str "payqr"
  | Action.CreateQrCode => JVal.str "staticQrCreate"
  | Action.PayToken => JVal.str "paytoken"
  | Action.PayCash => JVal.str "paycash"
  | Action.PayTrack => JVal.str "paytrack"
  | Action.Refund => JVal.str "refund"
  | Action.Hold => JVal.str "hold"
  | Action.Subscribe => JVal.str "subscribe"
  | Action.UpdateSubscription => JVal.str "subscribe_update"
  | Action.PayDonate => JVal.str "paydonate"
  | Action.Auth => JVal.str "auth"
  | Action.Status => JVal.str "status"
  | Action.Unsubscribe => JVal.str "unsubscribe"
  | Action.Ticket => JVal.str "ticket"
  | Action.PaySplit => JVal.str "paysplit"
  | Action.Regular => JVal.str "regular"
  | Action.PreparePayment => JVal.str "payment_prepare"
  | Action.P2PCredit => JVal.str "p2pcredit"
  | Action.P2PDebit => JVal.str "p2pdebit"
  | Action.P2P => JVal.str "p2p"
  | Action.CardVerification => JVal.str "cardverification"
  | Action.Reports => JVal.str "reports"
  | Action.CreateToken => JVal.str "token_create"
  | Action.CreateUniqueToken => JVal.str "token_create_unique"
  | Action.UpdateToken => JVal.str "token_update"
  | Action.ReportsCompensation => JVal.str "reports_compensation"
  | Action.ReportsCompensationFile => JVal.str "reports_compensation_file"
  | Action.ReportsCompensationFileStatus => JVal.str "reports_compensation_file_status"
  | Action.Registry => JVal.str "register"
  | Action.Data => JVal.str "data"
  | Action.CreateShop => JVal.str "agent_shop_create"
  | Action.RegisterShop => JVal.str "agent_shop_register"
  | Action.EditShop => JVal.str "agent_shop_edit"
  | Action.MccCodes => JVal.str "agent_info_mcc_codes"
  | Action.MerchantInfo => JVal.str "agent_info_merchant"
  | Action.UserInfo => JVal.str "agent_info_user"
  | Action.GetInvoiceUnits => JVal.str "invoice_units_get_list"
  | Action.GetInvoiceUnitsByLanguage => JVal.str "invoice_units_get_list_by_lang"
  | Action.Confirm => JVal.str "confirm"
  | Action.Mpi => JVal.str "mpi"

/-- Translation of the Currency enum in common.rs. -/
inductive Currency where
  | UAH
  | EUR
  | USD
deriving DecidableEq

/-- Serde serialization of Currency. -/
def Currency.toJson : Currency → JVal
  | Currency.UAH => JVal.str "UAH"
  | Currency.EUR => JVal.str "EUR"
  | Currency.USD => JVal.str "USD"

/-- Translation of the Language enum in common.rs. -/
inductive Language where
  | En
  | Uk
deriving DecidableEq

/-- Serde serialization of Language. -/
def Language.toJson : Language → JVal
  | Language.En => JVal.str "en"
  | Language.Uk => JVal.str "uk"

/-- Translation of the PayType enum in common.rs. -/
inductive PayType where
  | Card
  | LiqPay
  | Privat24
  | Masterpass
  | MomentPart
  | PayPart
  | Cash
  | Invoice
  | QR
  | ApplePay
  | GooglePay
  | ApplePayDecrypted
  | GooglePayDecrypted
  | Tavv
deriving DecidableEq

/-- Serde serialization of PayType per the rename attributes. -/
def PayType.toJson : PayType → JVal
  | PayType.Card => JVal.str "card"
  | PayType.LiqPay => JVal.str "liqpay"
  | PayType.Privat24 => JVal.str "privat24"
  | PayType.Masterpass => JVal.str "masterpass"
  | PayType.MomentPart => JVal.str "moment_part"
  | PayType.PayPart => JVal.str "paypart"
  | PayType.Cash => JVal.str "cash"
  | PayType.Invoice => JVal.str "invoice"
  | PayType.QR => JVal.str "qr"
  | PayType.ApplePay => JVal.str "apay"
  | PayType.GooglePay => JVal.str "gpay"
  | PayType.ApplePayDecrypted => JVal.str "apay_tavv"
  | PayType.GooglePayDecrypted => JVal.str "gpay_tavv"
  | PayType.Tavv => JVal.str "tavv"

/-- Translation of the Prepare enum in common.rs. -/
inductive Prepare where
  | Enable
  | Tariffs
deriving DecidableEq

/-- Serde serialization of Prepare. -/
def Prepare.toJson : Prepare → JVal
  | Prepare.Enable => JVal.str "1"
  | Prepare.Tariffs => JVal.str "tariffs"

/-- Translation of the fiscalization Item struct in internet_acquiring
common.rs. -/
structure Item where
  id : Nat
  amount : Nat
  cost : ℚ
  price : ℚ
deriving DecidableEq

/-- Serde serialization of Item. -/
def Item.toJson (it : Item) : JVal :=
  JVal.obj [("id", JVal.num it.id), ("amount", JVal.num it.amount),
    ("cost", JVal.num it.cost), ("price", JVal.num it.price)]

/-- Translation of the RroInfo struct in internet_acquiring common.rs. -/
structure RroInfo where
  items : Option (List Item)
  delivery_emails : Option (List String)
deriving DecidableEq

/-- Serde serialization of RroInfo: both fields carry the skip-if-none
attribute. -/
def RroInfo.toJson (r : RroInfo) : JVal :=
  JVal.obj (optField "items" r.items (fun xs => JVal.arr (xs.map Item.toJson)) ++
    optField "delivery_emails" r.delivery_emails (fun xs => JVal.arr (xs.map JVal.str)))

/-- Country value of the external iso3166 crate; only its numeric id field is
read by the code under verification. -/
structure Country where
  id : Nat
deriving DecidableEq

/-- Translation of the CardPaymentRequest struct in internet_acquiring
card.rs, fields in declaration order. Amounts are the rational values of the
stored doubles. -/
structure CardPaymentRequest where
  version : Version
  public_key : String
  action : Action
  amount : ℚ
  card : String
  card_exp_month : String
  card_exp_year : String
  currency : Currency
  order_id : String
  description : String
  card_cvv : Option String
  ip : Option String
  phone : Option String
  pay_type : Option PayType
  tavv : Option String
  tid : Option String
  language : Option Language
  prepare : Option Prepare
  recurring_by_token : Option Char
  result_url : Option String
  recurring : Option Bool
  server_url : Option String
  eci : Option String
  cavv : Option String
  tdsv : Option String
  ds_trans_id : Option String
  rro_info : Option RroInfo
  split_rules : Option String
  split_tickets_only : Option Bool
  sender_first_name : Option String
  sender_last_name : Option String
  sender_email : Option String
  sender_country_code : Option String
  sender_city : Option String
  sender_address : Option String
  sender_state : Option String
  sender_shipping_state : Option String
  sender_postal_code : Option String
  customer : Option String
  detail_addenda : Option String
  info : Option String
  product_category : Option String
  product_description : Option String
  product_name : Option String
  product_url : Option String

/-- Translation of CardPaymentRequest new: required fields from the
arguments, version seven, action pay, every optional field absent. -/
def CardPaymentRequest.new (public_key : String) (amount : ℚ)
    (currency : Currency) (card exp_month exp_year order_id description : String) :
    CardPaymentRequest :=
  { version := Version.Seven
    public_key := public_key
    action := Action.Pay
    amount := amount
    card := card
    card_exp_month := exp_month
    card_exp_year := exp_year
    currency := currency
    order_id := order_id
    description := description
    card_cvv := none
    ip := none
    phone := none
    pay_type := none
    tavv := none
    tid := none
    language := none
    prepare := none
    recurring_by_token := none
    result_url := none
    recurring := none
    server_url := none
    eci := none
    cavv := none
    tdsv := none
    ds_trans_id := none
    rro_info := none
    split_rules := none
    split_tickets_only := none
    sender_first_name := none
    sender_last_name := none
    sender_email := none
    sender_country_code := none
    sender_city := none
    sender_address := none
    sender_state := none
    sender_shipping_state := none
    sender_postal_code := none
    customer := none
    detail_addenda := none
    info := none
    product_category := none
    product_description := none
    product_name := none
    product_url := none }

/-- Serde-derived serialization of CardPaymentRequest: the JSON object fields
in declaration order, renamed where the rename attribute says so, optional
fields omitted when absent. -/
def CardPaymentRequest.toJsonFields (r : CardPaymentRequest) :
    List (String × JVal) :=
  [("version", r.version.toJson), ("public_key", JVal.str r.public_key),
    ("action", r.action.toJson), ("amount", JVal.num r.amount),
    ("card", JVal.str r.card), ("card_exp_month", JVal.str r.card_exp_month),
    ("card_exp_year", JVal.str r.card_exp_year), ("currency", r.currency.toJson),
    ("order_id", JVal.str r.order_id), ("description", JVal.str r.description)] ++
  optField "card_cvv" r.card_cvv JVal.str ++
  optField "ip" r.ip JVal.str ++
  optField "phone" r.phone JVal.str ++
  optField "paytype" r.pay_type PayType.toJson ++
  optField "tavv" r.tavv JVal.str ++
  optField "tid" r.tid JVal.str ++
  optField "language" r.language Language.toJson ++
  optField "prepare" r.prepare Prepare.toJson ++
  optField "recurringbytoken" r.recurring_by_token (fun c => JVal.str c.toString) ++
  optField "result_url" r.result_url JVal.str ++
  optField "recurring" r.recurring JVal.boolean ++
  optField "server_url" r.server_url JVal.str ++
  optField "eci" r.eci JVal.str ++
  optField "cavv" r.cavv JVal.str ++
  optField "tdsv" r.tdsv JVal.str ++
  optField "dsTransID" r.ds_trans_id JVal.str ++
  optField "rro_info" r.rro_info RroInfo.toJson ++
  optField "split_rules" r.split_rules JVal.str ++
  optField "split_tickets_only" r.split_tickets_only JVal.boolean ++
  optField "sender_first_name" r.sender_first_name JVal.str ++
  optField "sender_last_name" r.sender_last_name JVal.str ++
  optField "sender_email" r.sender_email JVal.str ++
  optField "sender_country_code" r.sender_country_code JVal.str ++
  optField "sender_city" r.sender_city JVal.str ++
  optField "sender_address" r.sender_address JVal.str ++
  optField "sender_state" r.sender_state JVal.str ++
  optField "sender_shipping_state" r.sender_shipping_state JVal.str ++
  optField "sender_postal_code" r.sender_postal_code JVal.str ++
  optField "customer" r.customer JVal.str ++
  optField "dae" r.detail_addenda JVal.str ++
  optField "info" r.info JVal.str ++
  optField "product_category" r.product_category JVal.str ++
  optField "product_description" r.product_description JVal.str ++
  optField "product_name" r.product_name JVal.str ++
  optField "product_url" r.product_url JVal.str

/-- Serialized names of the ten required CardPaymentRequest fields, in
declaration order. -/
def cardRequiredKeys : List String :=
  ["version", "public_key", "action", "amount", "card", "card_exp_month",
    "card_exp_year", "currency", "order_id", "description"]

/-- Serialized names of the thirty-five optional CardPaymentRequest fields,
renames included. -/
def cardOptionalKeys : List String :=
  ["card_cvv", "ip", "phone", "paytype", "tavv", "tid", "language", "prepare",
    "recurringbytoken", "result_url", "recurring", "server_url", "eci", "cavv",
    "tdsv", "dsTransID", "rro_info", "split_rules", "split_tickets_only",
    "sender_first_name", "sender_last_name", "sender_email",
    "sender_country_code", "sender_city", "sender_address", "sender_state",
    "sender_shipping_state", "sender_postal_code", "customer", "dae", "info",
    "product_category", "product_description", "product_name", "product_url"]

/-- Predicate: no optional field of the request is set. -/
def CardPaymentRequest.noOptionals (r : CardPaymentRequest) : Prop :=
  r.card_cvv = none ∧ r.ip = none ∧ r.phone = none ∧ r.pay_type = none ∧
  r.tavv = none ∧ r.tid = none ∧ r.language = none ∧ r.prepare = none ∧
  r.recurring_by_token = none ∧ r.result_url = none ∧ r.recurring = none ∧
  r.server_url = none ∧ r.eci = none ∧ r.cavv = none ∧ r.tdsv = none ∧
  r.ds_trans_id = none ∧ r.rro_info = none ∧ r.split_rules = none ∧
  r.split_tickets_only = none ∧ r.sender_first_name = none ∧
  r.sender_last_name = none ∧ r.sender_email = none ∧
  r.sender_country_code = none ∧ r.sender_city = none ∧
  r.sender_address = none ∧ r.sender_state = none ∧
  r.sender_shipping_state = none ∧ r.sender_postal_code = none ∧
  r.customer = none ∧ r.detail_addenda = none ∧ r.info = none ∧
  r.product_category = none ∧ r.product_description = none ∧
  r.product_name = none ∧ r.product_url = none

/-!
Setters of CardPaymentRequest, one per builder method in card.rs. Lean
structure projections occupy the field names, so each setter carries a set
prefix; the suffix is the Rust method name.
-/

/-- Translation of the private tavv helper in card.rs: sets the pay type and
the tavv token together. -/
def CardPaymentRequest.set_tavv (self : CardPaymentRequest) (tavv : String)
    (pay_type : PayType) : CardPaymentRequest :=
  { self with pay_type := some pay_type, tavv := some tavv }

/-- Translation of the cvv builder method. -/
def CardPaymentRequest.set_cvv (self : CardPaymentRequest) (cvv : String) :
    CardPaymentRequest :=
  { self with card_cvv := some cvv }

/-- Translation of the ip builder method. -/
def CardPaymentRequest.set_ip (self : CardPaymentRequest) (ip : String) :
    CardPaymentRequest :=
  { self with ip := some ip }

/-- Translation of the phone builder method. -/
def CardPaymentRequest.set_phone (self : CardPaymentRequest) (phone : String) :
    CardPaymentRequest :=
  { self with phone := some phone }

/-- Translation of apple_pay_type: delegates to the tavv helper with the
apay pay type. -/
def CardPaymentRequest.set_apple_pay_type (self : CardPaymentRequest)
    (tavv : String) : CardPaymentRequest :=
  self.set_tavv tavv PayType.ApplePay

/-- Translation of apple_pay_type_tavv: delegates with apay_tavv. -/
def CardPaymentRequest.set_apple_pay_type_tavv (self : CardPaymentRequest)
    (tavv : String) : CardPaymentRequest :=
  self.set_tavv tavv PayType.ApplePayDecrypted

/-- Translation of google_pay_type: delegates with gpay. -/
def CardPaymentRequest.set_google_pay_type (self : CardPaymentRequest)
    (tavv : String) : CardPaymentRequest :=
  self.set_tavv tavv PayType.GooglePay

/-- Translation of google_pay_type_tavv: the source delegates with apay_tavv
rather than gpay_tavv; the translation keeps that behavior. -/
def CardPaymentRequest.set_google_pay_type_tavv (self : CardPaymentRequest)
    (tavv : String) : CardPaymentRequest :=
  self.set_tavv tavv PayType.ApplePayDecrypted

/-- Translation of the tid builder method. -/
def CardPaymentRequest.set_tid (self : CardPaymentRequest) (tid : String) :
    CardPaymentRequest :=
  { self with tid := some tid }

/-- Translation of the language builder method. -/
def CardPaymentRequest.set_language (self : CardPaymentRequest)
    (language : Language) : CardPaymentRequest :=
  { self with language := some language }

/-- Translation of the prepare builder method. -/
def CardPaymentRequest.set_prepare (self : CardPaymentRequest)
    (prepare : Prepare) : CardPaymentRequest :=
  { self with prepare := some prepare }

/-- Translation of the recurring_by_token builder method: stores the
character one. -/
def CardPaymentRequest.set_recurring_by_token (self : CardPaymentRequest) :
    CardPaymentRequest :=
  { self with recurring_by_token := some '1' }

/-- Translation of the result_url builder method. -/
def CardPaymentRequest.set_result_url (self : CardPaymentRequest)
    (url : String) : CardPaymentRequest :=
  { self with result_url := some url }

/-- Translation of the recurring builder method. -/
def CardPaymentRequest.set_recurring (self : CardPaymentRequest) :
    CardPaymentRequest :=
  { self with recurring := some true }

/-- Translation of the server_url builder method. -/
def CardPaymentRequest.set_server_url (self : CardPaymentRequest)
    (url : String) : CardPaymentRequest :=
  { self with server_url := some url }

/-- Translation of the eci builder method. -/
def CardPaymentRequest.set_eci (self : CardPaymentRequest) (eci : String) :
    CardPaymentRequest :=
  { self with eci := some eci }

/-- Translation of the cavv builder method. -/
def CardPaymentRequest.set_cavv (self : CardPaymentRequest) (cavv : String) :
    CardPaymentRequest :=
  { self with cavv := some cavv }

/-- Translation of the tdsv builder method. -/
def CardPaymentRequest.set_tdsv (self : CardPaymentRequest) (tdsv : String) :
    CardPaymentRequest :=
  { self with tdsv := some tdsv }

/-- Translation of the ds_trans_id builder method. -/
def CardPaymentRequest.set_ds_trans_id (self : CardPaymentRequest)
    (i : String) : CardPaymentRequest :=
  { self with ds_trans_id := some i }

/-- Translation of the rro_info builder method. -/
def CardPaymentRequest.set_rro_info (self : CardPaymentRequest)
    (info : RroInfo) : CardPaymentRequest :=
  { self with rro_info := some info }

/-- Translation of the split_tickets_only builder method. -/
def CardPaymentRequest.set_split_tickets_only (self : CardPaymentRequest) :
    CardPaymentRequest :=
  { self with split_tickets_only := some true }

/-- Translation of the split_rules builder method. -/
def CardPaymentRequest.set_split_rules (self : CardPaymentRequest)
    (rules : String) : CardPaymentRequest :=
  { self with split_rules := some rules }

/-- Translation of the sender_first builder method, which sets the
sender_first_name field. -/
def CardPaymentRequest.set_sender_first (self : CardPaymentRequest)
    (name : String) : CardPaymentRequest :=
  { self with sender_first_name := some name }

/-- Translation of the sender_last_name builder method. -/
def CardPaymentRequest.set_sender_last_name (self : CardPaymentRequest)
    (name : String) : CardPaymentRequest :=
  { self with sender_last_name := some name }

/-- Translation of the sender_email builder method. -/
def CardPaymentRequest.set_sender_email (self : CardPaymentRequest)
    (email : String) : CardPaymentRequest :=
  { self with sender_email := some email }

/-- Translation of the sender_country_code builder method: stores the decimal
string of the numeric country id. -/
def CardPaymentRequest.set_sender_country_code (self : CardPaymentRequest)
    (country : Country) : CardPaymentRequest :=
  { self with sender_country_code := some (Nat.repr country.id) }

/-- Translation of the sender_city builder method. -/
def CardPaymentRequest.set_sender_city (self : CardPaymentRequest)
    (city : String) : CardPaymentRequest :=
  { self with sender_city := some city }

/-- Translation of the sender_address builder method. -/
def CardPaymentRequest.set_sender_address (self : CardPaymentRequest)
    (address : String) : CardPaymentRequest :=
  { self with sender_address := some address }

/-- Translation of the sender_state builder method. -/
def CardPaymentRequest.set_sender_state (self : CardPaymentRequest)
    (state : String) : CardPaymentRequest :=
  { self with sender_state := some state }

/-- Translation of the sender_shipping_state builder method. -/
def CardPaymentRequest.set_sender_shipping_state (self : CardPaymentRequest)
    (state : String) : CardPaymentRequest :=
  { self with sender_shipping_state := some state }

/-- Translation of the sender_postal_code builder method. -/
def CardPaymentRequest.set_sender_postal_code (self : CardPaymentRequest)
    (code : String) : CardPaymentRequest :=
  { self with sender_postal_code := some code }

/-- Translation of the customer builder method. -/
def CardPaymentRequest.set_customer (self : CardPaymentRequest)
    (customer : String) : CardPaymentRequest :=
  { self with customer := some customer }

/-- Translation of the info builder method. -/
def CardPaymentRequest.set_info (self : CardPaymentRequest) (info : String) :
    CardPaymentRequest :=
  { self with info := some info }

/-- Translation of the product_category builder method. -/
def CardPaymentRequest.set_product_category (self : CardPaymentRequest)
    (category : String) : CardPaymentRequest :=
  { self with product_category := some category }

/-- Translation of the product_description builder method. -/
def CardPaymentRequest.set_product_description (self : CardPaymentRequest)
    (description : String) : CardPaymentRequest :=
  { self with product_description := some description }

/-- Translation of the product_name builder method. -/
def CardPaymentRequest.set_product_name (self : CardPaymentRequest)
    (name : String) : CardPaymentRequest :=
  { self with product_name := some name }

/-- Translation of the product_url builder method. -/
def CardPaymentRequest.set_product_url (self : CardPaymentRequest)
    (url : String) : CardPaymentRequest :=
  { self with product_url := some url }

/-- Translation of the TokenPaymentRequest struct in internet_acquiring
token.rs, fields in declaration order. -/
structure TokenPaymentRequest where
  version : Version
  public_key : String
  action : Action
  amount : ℚ
  card_token : String
  currency : Currency
  order_id : String
  description : String
  ip : Option String
  phone : Option String
  language : Option Language
  prepare : Option Char
  server_url : Option String
  split_rules : Option String
  split_tickets_only : Option Bool
  sender_address : Option String
  sender_city : Option String
  sender_country_code : Option String
  sender_first_name : Option String
  sender_last_name : Option String
  sender_postal_code : Option String
  customer : Option String
  detail_addenda : Option String
  info : Option String
  product_category : Option String
  product_description : Option String
  product_name : Option String
  product_url : Option String
  is_recurring : Option Bool

/-- Hash algorithm bound to CardPaymentRequest by its LiqPayRequest impl in
card.rs, which names Sha3_256. -/
def CardPaymentRequest.boundHash : Bytes → Bytes := sha3_256

/-- Hash algorithm bound to TokenPaymentRequest by its LiqPayRequest impl in
token.rs, which names Sha1. -/
def TokenPaymentRequest.boundHash : Bytes → Bytes := sha1

/-- Transcription of every LiqPayRequest impl header in the repository, one
triple of module-qualified request type, response type, and hash algorithm
per impl, in file order. The parallel information and informational trees
contain distinct types and are both listed. -/
def contractBindings : List (String × String × String) :=
  [("internet_acquiring::invoice::SendInvoiceRequest", "SendInvoiceResponse", "Sha3_256"),
    ("internet_acquiring::invoice::CancelInvoiceRequest", "CancelInvoiceResponse", "Sha3_256"),
    ("internet_acquiring::invoice::InvoiceUnitsRequest", "InvoiceUnitsResponse", "Sha1"),
    ("internet_acquiring::two_stage::TwoStageRequest", "TwoStageResponse", "Sha3_256"),
    ("internet_acquiring::two_step::FundsBlockingRequest", "FundsBlockingResponse", "Sha3_256"),
    ("internet_acquiring::two_step::PaymentCompletionRequest", "PaymentCompletionResponse", "Sha3_256"),
    ("internet_acquiring::card::CardPaymentRequest", "CardPaymentResponse", "Sha3_256"),
    ("internet_acquiring::refund::RefundRequest", "RefundResponse", "Sha3_256"),
    ("internet_acquiring::cash::CashPaymentRequest", "CashPaymentResponse", "Sha3_256"),
    ("internet_acquiring::subscription::SubscribeRequest", "SubscribeResponse", "Sha3_256"),
    ("internet_acquiring::subscription::CancelSubscriptionRequest", "CancelSubscriptionResponse", "Sha3_256"),
    ("internet_acquiring::subscription::UpdateSubscriptionRequest", "UpdateSubscriptionResponse", "Sha3_256"),
    ("internet_acquiring::token::TokenPaymentRequest", "TokenPaymentResponse", "Sha1"),
    ("internet_acquiring::qr_code::DynamicQrCodeRequest", "DynamicQrCodeResponse", "Sha3_256"),
    ("internet_acquiring::qr_code::StaticQrCodeRequest", "StaticQrCodeResponse", "Sha3_256"),
    ("verification::mpi::MpiRequest", "MpiResponse", "Sha3_256"),
    ("verification::card_verification::CardVerificationRequest", "CardVerificationResponse", "Sha3_256"),
    ("verification::otp::OtpRequest", "OtpResponse", "Sha3_256"),
    ("p2p_debit::P2PDebitRequest", "P2PDebitResponse", "Sha3_256"),
    ("informational::archive::ArchiveRequest", "ArchiveResponse", "Sha3_256"),
    ("informational::add_data::AddDataRequest", "AddDataResponse", "Sha3_256"),
    ("informational::registry::CompensationReportRequest", "CompensationReportResponse", "Sha3_256"),
    ("informational::registry::RegistryRequest", "RegistryResponse", "Sha3_256"),
    ("informational::registry::CompensationReportFileRequest", "CompensationReportFileResponse", "Sha3_256"),
    ("informational::registry::CompensationReportFileStatusRequest", "CompensationReportFileStatusResponse", "Sha3_256"),
    ("informational::registry::P2PCompensationReportFileRequest", "CompensationReportFileResponse", "Sha3_256"),
    ("informational::receipt::SendReceiptRequest", "SendReceiptResponse", "Sha3_256"),
    ("informational::status::StatusRequest", "StatusResponse", "Sha3_256"),
    ("tokens::CreateTokenRequest", "CreateTokenResponse", "Sha3_256"),
    ("tokens::ChangeTokenStatusRequest", "ChangeTokenStatusResponse", "Sha3_256"),
    ("partner::partner_information::PartnerInformationRequest", "PartnerInformationResponse", "Sha3_256"),
    ("partner::create_company::CreateCompanyRequest", "CreateCompanyResponse", "Sha3_256"),
    ("partner::create_company::MccCodesRequest", "MccCodesResponse", "Sha1"),
    ("partner::create_company::MccDocumentsRequest", "MccDocumentsResponse", "Sha1"),
    ("partner::create_company::RegisterCompanyRequest", "RegisterCompanyResponse", "Sha3_256"),
    ("partner::company_information::CompanyInformationRequest", "CompanyInformationResponse", "Sha3_256"),
    ("partner::edit_company::EditCompanyRequest", "EditCompanyResponse", "Sha3_256"),
    ("information::archive::ArchiveRequest", "ArchiveResponse", "Sha3_256"),
    ("information::add_data::AddDataRequest", "AddDataResponse", "Sha3_256"),
    ("information::registry::CompensationReportRequest", "CompensationReportResponse", "Sha3_256"),
    ("information::registry::RegistryRequest", "RegistryResponse", "Sha3_256"),
    ("information::registry::CompensationReportFileRequest", "CompensationReportFileResposne", "Sha3_256"),
    ("information::registry::CompensationReportFileStatusRequest", "CompensationReportFileStatusResponse", "Sha3_256"),
    ("information::registry::P2PCompensationReportFileRequest", "CompensationReportFileResposne", "Sha3_256"),
    ("information::receipt::SendReceiptRequest", "SendReceiptResponse", "Sha3_256"),
    ("information::status::StatusRequest", "StatusResponse", "Sha3_256"),
    ("p2p_credit::P2PCreditRequest", "P2PCreditResponse", "Sha3_256")]

/-- Transcription of every request struct declared in the repository, by
module-qualified name, in the same file order as the impl headers. -/
def registeredRequestTypes : List String :=
  ["internet_acquiring::invoice::SendInvoiceRequest",
    "internet_acquiring::invoice::CancelInvoiceRequest",
    "internet_acquiring::invoice::InvoiceUnitsRequest",
    "internet_acquiring::two_stage::TwoStageRequest",
    "internet_acquiring::two_step::FundsBlockingRequest",
    "internet_acquiring::two_step::PaymentCompletionRequest",
    "internet_acquiring::card::CardPaymentRequest",
    "internet_acquiring::refund::RefundRequest",
    "internet_acquiring::cash::CashPaymentRequest",
    "internet_acquiring::subscription::SubscribeRequest",
    "internet_acquiring::subscription::CancelSubscriptionRequest",
    "internet_acquiring::subscription::UpdateSubscriptionRequest",
    "internet_acquiring::token::TokenPaymentRequest",
    "internet_acquiring::qr_code::DynamicQrCodeRequest",
    "internet_acquiring::qr_code::StaticQrCodeRequest",
    "verification::mpi::MpiRequest",
    "verification::card_verification::CardVerificationRequest",
    "verification::otp::OtpRequest",
    "p2p_debit::P2PDebitRequest",
    "informational::archive::ArchiveRequest",
    "informational::add_data::AddDataRequest",
    "informational::registry::CompensationReportRequest",
    "informational::registry::RegistryRequest",
    "informational::registry::CompensationReportFileRequest",
    "informational::registry::CompensationReportFileStatusRequest",
    "informational::registry::P2PCompensationReportFileRequest",
    "informational::receipt::SendReceiptRequest",
    "informational::status::StatusRequest",
    "tokens::CreateTokenRequest",
    "tokens::ChangeTokenStatusRequest",
    "partner::partner_information::PartnerInformationRequest",
    "partner::create_company::CreateCompanyRequest",
    "partner::create_company::MccCodesRequest",
    "partner::create_company::MccDocumentsRequest",
    "partner::create_company::RegisterCompanyRequest",
    "partner::company_information::CompanyInformationRequest",
    "partner::edit_company::EditCompanyRequest",
    "information::archive::ArchiveRequest",
    "information::add_data::AddDataRequest",
    "information::registry::CompensationReportRequest",
    "information::registry::RegistryRequest",
    "information::registry::CompensationReportFileRequest",
    "information::registry::CompensationReportFileStatusRequest",
    "information::registry::P2PCompensationReportFileRequest",
    "information::receipt::SendReceiptRequest",
    "information::status::StatusRequest",
    "p2p_credit::P2PCreditRequest"]

/-!
Fixtures used by the witness theorems: a concrete contract over natural
numbers with small oracle functions, and a transport returning a fixed body.
-/

/-- Concrete fixture contract for witnesses. -/
def testContract : Contract Nat Nat :=
  { hash := fun b => b.take 2
    serialize := fun n => Except.ok [n % 256]
    decode := fun b => Except.ok b.length }

/-- Concrete fixture transport for witnesses. -/
def testTransport : Transport :=
  fun _ => Except.ok [1, 2, 3]

/-- C1: for every private key, contract, and request value whose serde
serialization is the byte string s, the form data built by a dispatch carries
as signature exactly the base64 text of the contract-bound hash of the
private key, the base64 payload, and the private key concatenated in that
order. -/
theorem dispatch_signature_formula {Req Resp : Type} (ct : Contract Req Resp)
    (k : Bytes) (r : Req) (s : Bytes) (h : ct.serialize r = Except.ok s) :
    build_form_data ct k r =
      Except.ok [(DATA, base64Encode s),
        (SIGNATURE, base64Encode (ct.hash (k ++ base64Encode s ++ k)))] := by
  simp [build_form_data, h, build_signature]

/-- Witness for the signature formula at a concrete contract, key, and
request. -/
theorem dispatch_signature_formula_witness :
    build_form_data testContract [1, 2] 7 =
      Except.ok [(DATA, base64Encode [7]),
        (SIGNATURE, base64Encode (testContract.hash ([1, 2] ++ base64Encode [7] ++ [1, 2])))] :=
  dispatch_signature_formula testContract [1, 2] 7 [7] rfl

/-- C2: the blocking and the non-blocking dispatcher compute identical
results from identical inputs, and a successful dispatch returns exactly the
value decoded from the HTTP body by the contract-bound response decoder,
never raw text. -/
theorem send_modes_agree_and_decode_typed {Req Resp : Type} (k : Bytes)
    (ct : Contract Req Resp) (transport : Transport) (r : Req) :
    BlockLiqPayClient.send (BlockLiqPayClient.new k) ct transport r =
      LiqPayClient.send (LiqPayClient.new k) ct transport r ∧
    ∀ resp, LiqPayClient.send (LiqPayClient.new k) ct transport r = Except.ok resp →
      ∃ fd body, build_form_data ct k r = Except.ok fd ∧
        transport fd = Except.ok body ∧ ct.decode body = Except.ok resp := by
  constructor
  · rfl
  · intro resp h
    cases hs : ct.serialize r with
    | error e =>
      have hsend : LiqPayClient.send (LiqPayClient.new k) ct transport r =
          Except.error (DispatchError.serialization e) := by
        simp [LiqPayClient.send, LiqPayClient.new, build_form_data, hs]
      rw [hsend] at h
      exact absurd h (by simp)
    | ok s =>
      have hfd : build_form_data ct k r = Except.ok
          [(DATA, base64Encode s),
            (SIGNATURE, base64Encode (ct.hash (build_signature k (base64Encode s))))] := by
        simp [build_form_data, hs]
      cases htr : transport [(DATA, base64Encode s),
          (SIGNATURE, base64Encode (ct.hash (build_signature k (base64Encode s))))] with
      | error e =>
        have hsend : LiqPayClient.send (LiqPayClient.new k) ct transport r =
            Except.error (DispatchError.transport e) := by
          simp [LiqPayClient.send, LiqPayClient.new, hfd, htr]
        rw [hsend] at h
        exact absurd h (by simp)
      | ok body =>
        cases hdec : ct.decode body with
        | error e =>
          have hsend : LiqPayClient.send (LiqPayClient.new k) ct transport r =
              Except.error (DispatchError.decode e) := by
            simp [LiqPayClient.send, LiqPayClient.new, hfd, htr, hdec]
          rw [hsend] at h
          exact absurd h (by simp)
        | ok resp2 =>
          have hsend : LiqPayClient.send (LiqPayClient.new k) ct transport r =
              Except.ok resp2 := by
            simp [LiqPayClient.send, LiqPayClient.new, hfd, htr, hdec]
          rw [hsend] at h
          simp only [Except.ok.injEq] at h
          exact ⟨_, body, hfd, htr, by rw [hdec, h]⟩

/-- Witness for the agreement of the two execution modes at concrete
inputs. -/
theorem send_modes_agree_witness :
    (BlockLiqPayClient.send (BlockLiqPayClient.new [5]) testContract testTransport 9 =
      LiqPayClient.send (LiqPayClient.new [5]) testContract testTransport 9) ∧
    ∃ fd body, build_form_data testContract [5] 9 = Except.ok fd ∧
      testTransport fd = Except.ok body ∧ testContract.decode body = Except.ok 3 :=
  ⟨(send_modes_agree_and_decode_typed [5] testContract testTransport 9).1,
    (send_modes_agree_and_decode_typed [5] testContract testTransport 9).2 3 rfl⟩

/-- C3: for every dispatch whose request serializes, the form body is exactly
the two entries data and signature in that order, and the urlencoded POST
body is the data pair, an ampersand, and the signature pair. -/
theorem form_body_layout {Req Resp : Type} (ct : Contract Req Resp)
    (k : Bytes) (r : Req) (s : Bytes) (h : ct.serialize r = Except.ok s) :
    build_form_data ct k r = Except.ok
      [(DATA, base64Encode s), (SIGNATURE, signPayload ct.hash k (base64Encode s))] ∧
    ∀ fd, build_form_data ct k r = Except.ok fd →
      fd.length = 2 ∧ fd.map Prod.fst = [DATA, SIGNATURE] ∧
      formUrlencode fd = asciiBytes "data=" ++ pctEncode (base64Encode s) ++
        asciiBytes "&signature=" ++ pctEncode (signPayload ct.hash k (base64Encode s)) := by
  have hfd : build_form_data ct k r = Except.ok
      [(DATA, base64Encode s), (SIGNATURE, signPayload ct.hash k (base64Encode s))] := by
    simp [build_form_data, h, signPayload]
  refine ⟨hfd, ?_⟩
  intro fd hfd2
  rw [hfd] at hfd2
  simp only [Except.ok.injEq] at hfd2
  subst hfd2
  refine ⟨rfl, rfl, ?_⟩
  have hdata : asciiBytes "data=" = pctEncode (asciiBytes DATA) ++ [61] := by decide
  have hsig : asciiBytes "&signature=" = [38] ++ (pctEncode (asciiBytes SIGNATURE) ++ [61]) := by
    decide
  simp [formUrlencode, formUrlencodePair, hdata, hsig]

/-- Witness for the form body layout at a concrete contract, key, and
request. -/
theorem form_body_layout_witness :
    (build_form_data testContract [5] 9 = Except.ok
      [(DATA, base64Encode [9]), (SIGNATURE, signPayload testContract.hash [5] (base64Encode [9]))]) ∧
    ∀ fd, build_form_data testContract [5] 9 = Except.ok fd →
      fd.length = 2 ∧ fd.map Prod.fst = [DATA, SIGNATURE] ∧
      formUrlencode fd = asciiBytes "data=" ++ pctEncode (base64Encode [9]) ++
        asciiBytes "&signature=" ++ pctEncode (signPayload testContract.hash [5] (base64Encode [9])) :=
  form_body_layout testContract [5] 9 [9] rfl

/-- C4: every dispatch yields either a typed response value, or exactly one
of the three error kinds, each carrying the failing collaborator's error
unmodified; no other outcome is possible. -/
theorem dispatch_outcomes {Req Resp : Type} (c : LiqPayClient)
    (ct : Contract Req Resp) (tr : Transport) (r : Req) :
    (∃ resp, c.send ct tr r = Except.ok resp) ∨
    (∃ e, ct.serialize r = Except.error e ∧
      c.send ct tr r = Except.error (DispatchError.serialization e)) ∨
    (∃ fd e, build_form_data ct c.private_key r = Except.ok fd ∧ tr fd = Except.error e ∧
      c.send ct tr r = Except.error (DispatchError.transport e)) ∨
    (∃ fd body e, build_form_data ct c.private_key r = Except.ok fd ∧
      tr fd = Except.ok body ∧ ct.decode body = Except.error e ∧
      c.send ct tr r = Except.error (DispatchError.decode e)) := by
  cases hs : ct.serialize r with
  | error e =>
    exact Or.inr (Or.inl ⟨e, rfl, by simp [LiqPayClient.send, build_form_data, hs]⟩)
  | ok s =>
    have hfd : build_form_data ct c.private_key r = Except.ok
        [(DATA, base64Encode s),
          (SIGNATURE, base64Encode (ct.hash (build_signature c.private_key (base64Encode s))))] := by
      simp [build_form_data, hs]
    cases htr : tr [(DATA, base64Encode s),
        (SIGNATURE, base64Encode (ct.hash (build_signature c.private_key (base64Encode s))))] with
    | error e =>
      refine Or.inr (Or.inr (Or.inl ⟨_, e, hfd, htr, ?_⟩))
      simp [LiqPayClient.send, hfd, htr]
    | ok body =>
      cases hdec : ct.decode body with
      | error e =>
        refine Or.inr (Or.inr (Or.inr ⟨_, body, e, hfd, htr, hdec, ?_⟩))
        simp [LiqPayClient.send, hfd, htr, hdec]
      | ok resp =>
        exact Or.inl ⟨resp, by simp [LiqPayClient.send, hfd, htr, hdec]⟩

/-- C5: a card payment request with no optional field set serializes to a
JSON object whose keys are exactly the ten required field names and contain
none of the optional keys; present fields use the serialized, possibly
renamed, names of the schema. -/
theorem optional_fields_omitted (r : CardPaymentRequest) (h : r.noOptionals) :
    r.toJsonFields.map Prod.fst = cardRequiredKeys ∧
    ∀ key ∈ cardOptionalKeys, key ∉ r.toJsonFields.map Prod.fst := by
  obtain ⟨hcvv, hip, hphone, hpt, htavv, htid, hlang, hprep, hrbt, hresu,
    hrec, hsrv, heci, hcavv, htdsv, hdti, hrro, hsplr, hsplt, hsfn, hsln,
    hseml, hscc, hscty, haddr, hsst, hsss, hspcd, hcust, hdae, hinfo,
    hprc, hprd, hprn, hpru⟩ := h
  have hk : r.toJsonFields.map Prod.fst = cardRequiredKeys := by
    simp [CardPaymentRequest.toJsonFields, optField, cardRequiredKeys,
      hcvv, hip, hphone, hpt, htavv, htid, hlang, hprep, hrbt, hresu,
      hrec, hsrv, heci, hcavv, htdsv, hdti, hrro, hsplr, hsplt, hsfn, hsln,
      hseml, hscc, hscty, haddr, hsst, hsss, hspcd, hcust, hdae, hinfo,
      hprc, hprd, hprn, hpru]
  refine ⟨hk, ?_⟩
  rw [hk]
  decide

/-- Witness for optional-field omission at a freshly constructed request. -/
theorem optional_fields_omitted_witness :
    (CardPaymentRequest.new "pk" 10 Currency.UAH "4242424242424242" "01" "26"
        "A1" "test").toJsonFields.map Prod.fst = cardRequiredKeys ∧
    ∀ key ∈ cardOptionalKeys,
      key ∉ (CardPaymentRequest.new "pk" 10 Currency.UAH "4242424242424242"
        "01" "26" "A1" "test").toJsonFields.map Prod.fst :=
  optional_fields_omitted
    (CardPaymentRequest.new "pk" 10 Currency.UAH "4242424242424242" "01" "26" "A1" "test")
    (by simp [CardPaymentRequest.noOptionals, CardPaymentRequest.new])

/-- C6: with key secret and encoded payload body, a request type bound to the
legacy algorithm signs as base64 of the SHA-1 digest of secretbodysecret, and
a request type bound to the current algorithm signs as base64 of the SHA3-256
digest of secretbodysecret; the last two conjuncts pin the concrete digest
values. -/
theorem fixture_vectors :
    signPayload TokenPaymentRequest.boundHash (asciiBytes "secret") (asciiBytes "body") =
      base64Encode (sha1 (asciiBytes "secretbodysecret")) ∧
    signPayload CardPaymentRequest.boundHash (asciiBytes "secret") (asciiBytes "body") =
      base64Encode (sha3_256 (asciiBytes "secretbodysecret")) ∧
    signPayload TokenPaymentRequest.boundHash (asciiBytes "secret") (asciiBytes "body") =
      asciiBytes "zRd3FxwIjn8O8kPTtT6Ex6IWJgE=" ∧
    signPayload CardPaymentRequest.boundHash (asciiBytes "secret") (asciiBytes "body") =
      asciiBytes "+5dXRaLk0vE3NJzPzYItru46vGfhEhhgvZTL8WBUhOo=" :=
  ⟨by decide, by decide, by decide, by decide⟩

/-- Helper: the traced dispatcher computes the same result as the plain
one. -/
theorem sendTraced_fst {Req Resp : Type} (c : LiqPayClient)
    (ct : Contract Req Resp) (tr : Transport) (r : Req) :
    (c.sendTraced ct tr r).1 = c.send ct tr r := by
  cases hfd : build_form_data ct c.private_key r with
  | error e => simp [LiqPayClient.sendTraced, LiqPayClient.send, hfd]
  | ok fd =>
    cases htr : tr fd with
    | error e => simp [LiqPayClient.sendTraced, LiqPayClient.send, hfd, htr]
    | ok body =>
      cases hdec : ct.decode body with
      | error e => simp [LiqPayClient.sendTraced, LiqPayClient.send, hfd, htr, hdec]
      | ok resp => simp [LiqPayClient.sendTraced, LiqPayClient.send, hfd, htr, hdec]

/-- Helper: no dispatch ever performs more than one HTTP POST. -/
theorem sendTraced_le_one {Req Resp : Type} (c : LiqPayClient)
    (ct : Contract Req Resp) (tr : Transport) (r : Req) :
    (c.sendTraced ct tr r).2.length ≤ 1 := by
  cases hfd : build_form_data ct c.private_key r with
  | error e => simp [LiqPayClient.sendTraced, hfd]
  | ok fd =>
    cases htr : tr fd with
    | error e => simp [LiqPayClient.sendTraced, hfd, htr]
    | ok body =>
      cases hdec : ct.decode body with
      | error e => simp [LiqPayClient.sendTraced, hfd, htr, hdec]
      | ok resp => simp [LiqPayClient.sendTraced, hfd, htr, hdec]

/-- Helper: whenever the request serializes, the dispatcher hands the
transport exactly one form body, whose data entry is byte-identical to the
encoded payload from which the accompanying signature was computed. -/
theorem sendTraced_trace {Req Resp : Type} (c : LiqPayClient)
    (ct : Contract Req Resp) (tr : Transport) (r : Req) (s : Bytes)
    (hs : ct.serialize r = Except.ok s) :
    (c.sendTraced ct tr r).2 =
      [[(DATA, base64Encode s),
        (SIGNATURE, base64Encode (ct.hash (build_signature c.private_key (base64Encode s))))]] := by
  have hfd : build_form_data ct c.private_key r = Except.ok
      [(DATA, base64Encode s),
        (SIGNATURE, base64Encode (ct.hash (build_signature c.private_key (base64Encode s))))] := by
    simp [build_form_data, hs]
  cases htr : tr [(DATA, base64Encode s),
      (SIGNATURE, base64Encode (ct.hash (build_signature c.private_key (base64Encode s))))] with
  | error e => simp [LiqPayClient.sendTraced, hfd, htr]
  | ok body =>
    cases hdec : ct.decode body with
    | error e => simp [LiqPayClient.sendTraced, hfd, htr, hdec]
    | ok resp => simp [LiqPayClient.sendTraced, hfd, htr, hdec]

/-- C7: in either execution mode the dispatcher performs at most one HTTP
POST per invocation (the blocking trace coincides with the non-blocking
one), the traced result agrees with the plain dispatcher, and whenever the
request serializes exactly one POST is performed, its data entry
byte-identical to the encoded payload that was signed. -/
theorem single_post_per_dispatch {Req Resp : Type} (k : Bytes)
    (ct : Contract Req Resp) (tr : Transport) (r : Req) :
    ((LiqPayClient.new k).sendTraced ct tr r).1 =
      (LiqPayClient.new k).send ct tr r ∧
    ((BlockLiqPayClient.new k).sendTraced ct tr r).2 =
      ((LiqPayClient.new k).sendTraced ct tr r).2 ∧
    ((LiqPayClient.new k).sendTraced ct tr r).2.length ≤ 1 ∧
    ∀ s, ct.serialize r = Except.ok s →
      ((LiqPayClient.new k).sendTraced ct tr r).2 =
        [[(DATA, base64Encode s),
          (SIGNATURE, base64Encode (ct.hash (build_signature k (base64Encode s))))]] :=
  ⟨sendTraced_fst (LiqPayClient.new k) ct tr r, rfl,
    sendTraced_le_one (LiqPayClient.new k) ct tr r,
    fun s hs => sendTraced_trace (LiqPayClient.new k) ct tr r s hs⟩

/-- Witness for the single-POST property at concrete inputs. -/
theorem single_post_per_dispatch_witness :
    ((LiqPayClient.new [5]).sendTraced testContract testTransport 9).1 =
      (LiqPayClient.new [5]).send testContract testTransport 9 ∧
    ((BlockLiqPayClient.new [5]).sendTraced testContract testTransport 9).2 =
      ((LiqPayClient.new [5]).sendTraced testContract testTransport 9).2 ∧
    ((LiqPayClient.new [5]).sendTraced testContract testTransport 9).2.length ≤ 1 ∧
    ((LiqPayClient.new [5]).sendTraced testContract testTransport 9).2 =
      [[(DATA, base64Encode [9]),
        (SIGNATURE, base64Encode (testContract.hash
          (build_signature [5] (base64Encode [9]))))]] :=
  ⟨(single_post_per_dispatch [5] testContract testTransport 9).1,
    (single_post_per_dispatch [5] testContract testTransport 9).2.1,
    (single_post_per_dispatch [5] testContract testTransport 9).2.2.1,
    (single_post_per_dispatch [5] testContract testTransport 9).2.2.2 [9] rfl⟩

/-- C8: a dispatcher constructed with private key k stores exactly k, the
state-passing send of either variant returns every field of the client
unchanged, and the signature of every POST it performs is computed from k. -/
theorem credential_bound_once {Req Resp : Type} (k : Bytes)
    (ct : Contract Req Resp) (tr : Transport) (r : Req) :
    (LiqPayClient.new k).private_key = k ∧
    (BlockLiqPayClient.new k).private_key = k ∧
    ((LiqPayClient.new k).sendSt ct tr r).2 = LiqPayClient.new k ∧
    ((BlockLiqPayClient.new k).sendSt ct tr r).2 = BlockLiqPayClient.new k ∧
    ∀ s, ct.serialize r = Except.ok s →
      ((LiqPayClient.new k).sendTraced ct tr r).2 =
        [[(DATA, base64Encode s),
          (SIGNATURE, base64Encode (ct.hash (k ++ base64Encode s ++ k)))]] := by
  refine ⟨rfl, rfl, rfl, rfl, ?_⟩
  intro s hok
  have h := sendTraced_trace (LiqPayClient.new k) ct tr r s hok
  simpa [build_signature] using h

/-- Witness for credential binding at concrete inputs. -/
theorem credential_bound_once_witness :
    (LiqPayClient.new [5]).private_key = [5] ∧
    (BlockLiqPayClient.new [5]).private_key = [5] ∧
    ((LiqPayClient.new [5]).sendSt testContract testTransport 9).2 = LiqPayClient.new [5] ∧
    ((BlockLiqPayClient.new [5]).sendSt testContract testTransport 9).2 =
      BlockLiqPayClient.new [5] ∧
    ((LiqPayClient.new [5]).sendTraced testContract testTransport 9).2 =
      [[(DATA, base64Encode [9]),
        (SIGNATURE, base64Encode (testContract.hash ([5] ++ base64Encode [9] ++ [5])))]] :=
  ⟨(credential_bound_once [5] testContract testTransport 9).1,
    (credential_bound_once [5] testContract testTransport 9).2.1,
    (credential_bound_once [5] testContract testTransport 9).2.2.1,
    (credential_bound_once [5] testContract testTransport 9).2.2.2.1,
    (credential_bound_once [5] testContract testTransport 9).2.2.2.2 [9] rfl⟩

/-- C9: every registered request type is bound by exactly one LiqPayRequest
impl: the impl headers cover the request structs one to one, the qualified
request names are pairwise distinct across the two parallel schema trees,
and no request name carries two bindings. -/
theorem contract_exhaustive :
    contractBindings.map (fun b => b.1) = registeredRequestTypes ∧
    registeredRequestTypes.Nodup ∧
    ∀ t ∈ registeredRequestTypes,
      (contractBindings.filter (fun b => b.1 == t)).length = 1 :=
  ⟨by decide, by decide, by decide⟩

/-- C10: each single-value builder method of CardPaymentRequest sets exactly
its own field and leaves every other field unchanged, and only the four
pay-type helpers set the tavv and pay_type fields together. -/
theorem setters_frame :
    (∀ (r : CardPaymentRequest) (v : String), r.set_cvv v = { r with card_cvv := some v }) ∧
    (∀ (r : CardPaymentRequest) (v : String), r.set_ip v = { r with ip := some v }) ∧
    (∀ (r : CardPaymentRequest) (v : String), r.set_phone v = { r with phone := some v }) ∧
    (∀ (r : CardPaymentRequest) (v : String), r.set_tid v = { r with tid := some v }) ∧
    (∀ (r : CardPaymentRequest) (v : Language), r.set_language v = { r with language := some v }) ∧
    (∀ (r : CardPaymentRequest) (v : Prepare), r.set_prepare v = { r with prepare := some v }) ∧
    (∀ (r : CardPaymentRequest) (v : String), r.set_result_url v = { r with result_url := some v }) ∧
    (∀ (r : CardPaymentRequest) (v : String), r.set_server_url v = { r with server_url := some v }) ∧
    (∀ (r : CardPaymentRequest) (v : String), r.set_eci v = { r with eci := some v }) ∧
    (∀ (r : CardPaymentRequest) (v : String), r.set_cavv v = { r with cavv := some v }) ∧
    (∀ (r : CardPaymentRequest) (v : String), r.set_tdsv v = { r with tdsv := some v }) ∧
    (∀ (r : CardPaymentRequest) (v : String), r.set_ds_trans_id v = { r with ds_trans_id := some v }) ∧
    (∀ (r : CardPaymentRequest) (v : RroInfo), r.set_rro_info v = { r with rro_info := some v }) ∧
    (∀ (r : CardPaymentRequest) (v : String), r.set_split_rules v = { r with split_rules := some v }) ∧
    (∀ (r : CardPaymentRequest) (v : String), r.set_sender_first v = { r with sender_first_name := some v }) ∧
    (∀ (r : CardPaymentRequest) (v : String), r.set_sender_last_name v = { r with sender_last_name := some v }) ∧
    (∀ (r : CardPaymentRequest) (v : String), r.set_sender_email v = { r with sender_email := some v }) ∧
    (∀ (r : CardPaymentRequest) (c : Country), r.set_sender_country_code c =
      { r with sender_country_code := some (Nat.repr c.id) }) ∧
    (∀ (r : CardPaymentRequest) (v : String), r.set_sender_city v = { r with sender_city := some v }) ∧
    (∀ (r : CardPaymentRequest) (v : String), r.set_sender_address v = { r with sender_address := some v }) ∧
    (∀ (r : CardPaymentRequest) (v : String), r.set_sender_state v = { r with sender_state := some v }) ∧
    (∀ (r : CardPaymentRequest) (v : String), r.set_sender_shipping_state v =
      { r with sender_shipping_state := some v }) ∧
    (∀ (r : CardPaymentRequest) (v : String), r.set_sender_postal_code v =
      { r with sender_postal_code := some v }) ∧
    (∀ (r : CardPaymentRequest) (v : String), r.set_customer v = { r with customer := some v }) ∧
    (∀ (r : CardPaymentRequest) (v : String), r.set_info v = { r with info := some v }) ∧
    (∀ (r : CardPaymentRequest) (v : String), r.set_product_category v =
      { r with product_category := some v }) ∧
    (∀ (r : CardPaymentRequest) (v : String), r.set_product_description v =
      { r with product_description := some v }) ∧
    (∀ (r : CardPaymentRequest) (v : String), r.set_product_name v = { r with product_name := some v }) ∧
    (∀ (r : CardPaymentRequest) (v : String), r.set_product_url v = { r with product_url := some v }) ∧
    (∀ (r : CardPaymentRequest) (v : String), r.set_apple_pay_type v =
      { r with pay_type := some PayType.ApplePay, tavv := some v }) ∧
    (∀ (r : CardPaymentRequest) (v : String), r.set_apple_pay_type_tavv v =
      { r with pay_type := some PayType.ApplePayDecrypted, tavv := some v }) ∧
    (∀ (r : CardPaymentRequest) (v : String), r.set_google_pay_type v =
      { r with pay_type := some PayType.GooglePay, tavv := some v }) ∧
    (∀ (r : CardPaymentRequest) (v : String), r.set_google_pay_type_tavv v =
      { r with pay_type := some PayType.ApplePayDecrypted, tavv := some v }) :=
  by
    repeat' apply And.intro
    all_goals exact fun _ _ => rfl

end LiqPay
